import Mathlib

/-!
Verification of the MORPHO-STEREO engine specification against its source.

The development shallowly embeds the algorithmic core of the repository:

* the phase-correlation monitor (`AudioEngine.getPhaseCorrelation`,
  src/unnamed/part_005 lines 293-306 and src/services/audioEngine.ts
  lines 253-274);
* the band filter bank (`AudioEngine.createBandFilters`, part_005
  lines 150-170 and services lines 42-81);
* the Haas wiring of a band chain (`AudioEngine.createGraph`, part_005
  lines 120-136 and the inline copy in services `play`, lines 170-191);
* pan/width scaling (part_005 line 117, services `setGlobalWidth`
  lines 101-108 and `updateBandPan` lines 237-244);
* the safety-controller monitor tick (the `loop` closure in src/App.tsx
  lines 57-80 and src/unnamed/part_004 lines 52-74);
* the WAV encoder (`AudioEngine.encodeWAV`, part_005 lines 340-401);
* the engine transport guards (`AudioEngine.play` line 177 and
  `AudioEngine.exportAudio` line 312 of part_005, `stop` lines 248-255).

JavaScript numbers are idealised as exact rationals (for the control loop
and the encoder) or reals (for the correlation, which uses `Math.sqrt`).
JavaScript integer coercions (`setInt16`, `Math.round`, `&`, `>>`) are
modelled explicitly on `ℤ`, where Lean's `%` and `/` on `ℤ` agree with the
non-negative-residue and floor-division semantics JavaScript uses for
masked two's-complement arithmetic.
-/

namespace MorphoStereo

/-- JavaScript `Math.max` on exact rationals (kept as an `if` so that kernel
evaluation works on concrete inputs). -/
def jsMax (a b : ℚ) : ℚ := if a ≤ b then b else a

/-- JavaScript `Math.min` on exact rationals. -/
def jsMin (a b : ℚ) : ℚ := if a ≤ b then a else b

/-- Modelled from the spec: the clamping function `clamp(x, lo, hi)` the
specification uses when it claims effective pans are "always clamped to
[-1, 1] before being applied".  The source itself never clamps a pan
product; this definition exists to compare the spec formula with the code. -/
def specClamp (x lo hi : ℚ) : ℚ := jsMax lo (jsMin hi x)

/-- The sample clip `Math.max(-1, Math.min(1, sample))` from
`encodeWAV` (part_005 line 380). -/
def clip (s : ℚ) : ℚ := jsMax (-1) (jsMin 1 s)

/-- JavaScript `ToIntegerOrInfinity` truncation toward zero, as used by
`DataView.setInt16` when handed a non-integral number. -/
def jsTrunc (q : ℚ) : ℤ := if q < 0 then -⌊-q⌋ else ⌊q⌋

/-- JavaScript `Math.round` (round half toward positive infinity). -/
def jsRound (q : ℚ) : ℤ := ⌊q + 1 / 2⌋

/-- JavaScript `%` on numbers (truncated remainder), used by the play
offset computation `pauseTime % duration` (part_005 line 225). -/
def jsFmod (a b : ℚ) : ℚ := a - b * ((jsTrunc (a / b) : ℤ) : ℚ)

open Classical in
/-- `AudioEngine.getPhaseCorrelation` inner computation (part_005
lines 295-305): `corr = Σ(L·R) / (sqrt(Σ L²) · sqrt(Σ R²))` with the
convention that a zero denominator yields 1.  The fixed 2048-sample window
of the source is generalised to arbitrary equal-length windows. -/
noncomputable def phaseCorrelation (l r : List ℝ) : ℝ :=
  let sumLR := ((l.zip r).map fun p => p.1 * p.2).sum
  let sumL2 := (l.map fun x => x * x).sum
  let sumR2 := (r.map fun x => x * x).sum
  let denominator := Real.sqrt sumL2 * Real.sqrt sumR2
  if denominator = 0 then 1 else sumLR / denominator

/-- Biquad filter type (`BiquadFilterType` restricted to the two values the
engine uses). -/
inductive FilterKind
  | lowpass
  | highpass
deriving DecidableEq

/-- One biquad stage descriptor: type, cutoff frequency in Hz, and Q. -/
structure FilterStage where
  kind : FilterKind
  frequency : ℚ
  q : ℚ
deriving DecidableEq

/-- The `cf` helper of `createBandFilters` (part_005 lines 154-156): build
one stage with the fixed `Q_VAL = 0.707`. -/
def cf (t : FilterKind) (f : ℚ) : FilterStage := ⟨t, f, 707 / 1000⟩

/-- `AudioEngine.createBandFilters` (part_005 lines 150-170): the ordered
stage list per band id.  Stages are connected strictly in series in list
order by the final `connect` loop. -/
def createBandFilters (id : String) : List FilterStage :=
  if id = "low" then
    [cf FilterKind.lowpass 250, cf FilterKind.lowpass 250]
  else if id = "mid-low" then
    [cf FilterKind.highpass 250, cf FilterKind.highpass 250,
     cf FilterKind.lowpass 2000, cf FilterKind.lowpass 2000]
  else if id = "mid-high" then
    [cf FilterKind.highpass 2000, cf FilterKind.highpass 2000,
     cf FilterKind.lowpass 8000, cf FilterKind.lowpass 8000]
  else if id = "high" then
    [cf FilterKind.highpass 8000, cf FilterKind.highpass 8000]
  else []

/-- `AudioEngine.createBandFilters` of the realtime engine
(src/services/audioEngine.ts lines 42-81).  The body is written out there
with one named node per stage but produces the same ordered stage list. -/
def createBandFiltersRT (id : String) : List FilterStage :=
  if id = "low" then
    [cf FilterKind.lowpass 250, cf FilterKind.lowpass 250]
  else if id = "mid-low" then
    [cf FilterKind.highpass 250, cf FilterKind.highpass 250,
     cf FilterKind.lowpass 2000, cf FilterKind.lowpass 2000]
  else if id = "mid-high" then
    [cf FilterKind.highpass 2000, cf FilterKind.highpass 2000,
     cf FilterKind.lowpass 8000, cf FilterKind.lowpass 8000]
  else if id = "high" then
    [cf FilterKind.highpass 8000, cf FilterKind.highpass 8000]
  else []

/-- The series `connect` loop of `createBandFilters` (part_005 line 168):
stage `i` feeds stage `i+1`, as index pairs. -/
def seriesConnections (fs : List FilterStage) : List (ℕ × ℕ) :=
  (List.range (fs.length - 1)).map fun i => (i, i + 1)

/-- Shape of one band chain after the filters, as wired by `createGraph`
(part_005 lines 120-136): how many delay nodes the chain contains, and the
delay (in seconds) sitting on each channel path between the band splitter
and the band merger (`none` = the path has no delay node at all). -/
structure BandChainShape where
  delayNodeCount : ℕ
  leftPathDelay : Option ℚ
  rightPathDelay : Option ℚ
deriving DecidableEq

/-- The Haas branch of `createGraph` (part_005 lines 120-136):
`supportsHaas = config.id !== 'low'`; when supported a single delay node is
created on the right-channel path (splitter output 1 → delay → merger
input 1) with `delayTime = haas ? 0.015 : 0`, while the left channel
connects splitter output 0 straight to merger input 0. -/
def bandChainShape (id : String) (haas : Bool) : BandChainShape :=
  if id ≠ "low" then
    { delayNodeCount := 1
      leftPathDelay := none
      rightPathDelay := some (if haas then 15 / 1000 else 0) }
  else
    { delayNodeCount := 0, leftPathDelay := none, rightPathDelay := none }

/-- The identical Haas branch inlined in the realtime `play`
(src/services/audioEngine.ts lines 170-191). -/
def bandChainShapeRT (id : String) (haas : Bool) : BandChainShape :=
  if id ≠ "low" then
    { delayNodeCount := 1
      leftPathDelay := none
      rightPathDelay := some (if haas then 15 / 1000 else 0) }
  else
    { delayNodeCount := 0, leftPathDelay := none, rightPathDelay := none }

/-- The pan value `createGraph` assigns to a band panner (part_005
line 117): `panner.pan.value = config.pan * width`, with no clamping. -/
def createGraphPan (basePan width : ℚ) : ℚ := basePan * width

/-- `AudioEngine.setGlobalWidth` of part_005 (line 262) stores the incoming
width unmodified in `currentWidth`. -/
def setGlobalWidthStore (width : ℚ) : ℚ := width

/-- The width clamp of the realtime engine's `setGlobalWidth`
(src/services/audioEngine.ts line 102): `Math.max(0, Math.min(1, width))`. -/
def servicesClampWidth (width : ℚ) : ℚ := jsMax 0 (jsMin 1 width)

/-- The effective pan the realtime engine applies (services lines 105-106,
167 and 242): `basePan * globalWidth`, with `globalWidth` being the stored
(clamped) width.  The product itself is not clamped. -/
def servicesEffectivePan (basePan storedWidth : ℚ) : ℚ := basePan * storedWidth

/-- State of the monitor/safety control loop in the App component
(src/App.tsx lines 22-55 and src/unnamed/part_004 lines 22-50): the React
state the `loop` closure reads and writes, plus the closure-local
`correctionCooldown` counter. -/
structure LoopState where
  playing : Bool
  monoSafeMode : Bool
  bypass : Bool
  haasEnabled : Bool
  masterWidth : ℚ
  correlation : ℚ
  cooldown : ℤ
  autoCorrecting : Bool
deriving DecidableEq

/-- The correction body of the safe-mode branch (App.tsx lines 69-77):
disable Haas if enabled; if `masterWidth > 0.5` replace it by
`Math.max(0.5, masterWidth * 0.95)`; raise the correcting flag and set the
cooldown to 60. -/
def applyCorrection (s : LoopState) : LoopState :=
  let s1 := if s.haasEnabled then { s with haasEnabled := false } else s
  let s2 :=
    if s1.masterWidth > 1 / 2 then
      { s1 with masterWidth := jsMax (1 / 2) (s1.masterWidth * (19 / 20)) }
    else s1
  { s2 with autoCorrecting := true, cooldown := 60 }

/-- The safe-mode guard (App.tsx line 68): a correction fires only when
`monoSafeMode && !bypass && currCorr < 0 && correctionCooldown <= 0`.  Note
that the trigger reads `currCorr`, the instantaneous correlation of this
tick, not the exponentially smoothed `correlation` state. -/
def safeModeCheck (s : LoopState) (currCorr : ℚ) : LoopState :=
  if s.monoSafeMode = true ∧ s.bypass = false ∧ currCorr < 0 ∧ s.cooldown ≤ 0 then
    applyCorrection s
  else s

/-- The body of one invocation of the `loop` closure (App.tsx
lines 57-80), for a given instantaneous correlation reading `currCorr`
returned by `getPhaseCorrelation`: while playing, smooth the displayed
correlation (`prev * 0.9 + currCorr * 0.1`), run the safe-mode check, then
decrement a positive cooldown.  This is one tick as executed inside a
single lifetime of the effect closure; `correctionCooldown` is local to
that closure, so whether its value survives to the next tick depends on
the React effect-restart semantics modelled by `reactTick` below. -/
def loopTick (s : LoopState) (currCorr : ℚ) : LoopState :=
  if s.playing = true then
    let s1 := { s with correlation := s.correlation * (9 / 10) + currCorr * (1 / 10) }
    let s2 := safeModeCheck s1 currCorr
    if s2.cooldown > 0 then { s2 with cooldown := s2.cooldown - 1 } else s2
  else s

/-- The width update a single correction performs (App.tsx lines 70-74):
`Math.max(0.5, w * 0.95)` when `w > 0.5`, otherwise `w` unchanged. -/
def widthStep (w : ℚ) : ℚ :=
  if w > 1 / 2 then jsMax (1 / 2) (w * (19 / 20)) else w

/-- One monitor tick including the React effect-restart semantics.  The
`useEffect` owning the `loop` closure lists `haasEnabled` and
`masterWidth` (besides `playbackState`, `monoSafeMode`, `bypass`, which
the loop never writes) in its dependency array (App.tsx line 85, part_004
line 79).  A tick whose `setHaasEnabled`/`setMasterWidth` calls changed
either dependency therefore tears the effect down on the following
re-render and re-creates it, re-initialising the closure-local
`correctionCooldown` to 0 (the restart's immediate synchronous `loop()`
call is folded into the next tick).  `correlation` and `autoCorrecting`
are not dependencies, so their updates do not restart the effect. -/
def reactTick (s : LoopState) (currCorr : ℚ) : LoopState :=
  let t := loopTick s currCorr
  if t.haasEnabled = s.haasEnabled ∧ t.masterWidth = s.masterWidth then t
  else { t with cooldown := 0 }

/-- Iterated monitor ticks (with effect-restart semantics) over a list of
instantaneous correlation readings. -/
def reactRun (s : LoopState) (inputs : List ℚ) : LoopState :=
  inputs.foldl reactTick s

/-- Little-endian bytes of a 16-bit unsigned write (`DataView.setUint16`
with `littleEndian = true`). -/
def leU16 (n : ℕ) : List ℕ := [n % 256, n / 256 % 256]

/-- Little-endian bytes of a 32-bit unsigned write (`DataView.setUint32`
with `littleEndian = true`). -/
def leU32 (n : ℕ) : List ℕ :=
  [n % 256, n / 256 % 256, n / 65536 % 256, n / 16777216 % 256]

/-- The `writeString` helper of `encodeWAV` (part_005 line 355): one byte
per character, `charCodeAt`. -/
def asciiBytes (s : String) : List ℕ := (s).toList.map Char.toNat

/-- Little-endian decoding of a byte list (used to state that the emitted
byte groups really denote the claimed unsigned values). -/
def decodeLE (bs : List ℕ) : ℕ := bs.foldr (fun b acc => b + 256 * acc) 0

/-- The 44-byte WAV header emitted by `encodeWAV` (part_005 lines 354-369),
as the concatenation of the successive `DataView` writes at offsets
0, 4, 8, 12, 16, 20, 22, 24, 28, 32, 34, 36 and 40. -/
def wavHeader (numChannels sampleRate bitDepth frames : ℕ) : List ℕ :=
  let format := if bitDepth = 32 then 3 else 1
  let bytesPerSample := bitDepth / 8
  let blockAlign := numChannels * bytesPerSample
  let byteRate := sampleRate * blockAlign
  let dataSize := frames * blockAlign
  asciiBytes ("RIFF") ++ leU32 (36 + dataSize) ++
  asciiBytes ("WAVE") ++ asciiBytes ("fmt ") ++
  leU32 16 ++ leU16 format ++ leU16 numChannels ++ leU32 sampleRate ++
  leU32 byteRate ++ leU16 blockAlign ++ leU16 bitDepth ++
  asciiBytes ("data") ++ leU32 dataSize

/-- The 16-bit sample scaling of `encodeWAV` (part_005 line 383):
`sample < 0 ? sample * 0x8000 : sample * 0x7FFF`. -/
def pcmScale16 (c : ℚ) : ℚ := if c < 0 then c * 32768 else c * 32767

/-- The 24-bit sample scaling of `encodeWAV` (part_005 line 386):
`sample < 0 ? sample * 0x800000 : sample * 0x7FFFFF`. -/
def pcmScale24 (c : ℚ) : ℚ := if c < 0 then c * 8388608 else c * 8388607

/-- The integer actually handed to `setInt16` for a 16-bit sample: clip,
scale, then the implicit `ToIntegerOrInfinity` truncation of the write. -/
def written16 (s : ℚ) : ℤ := jsTrunc (pcmScale16 (clip s))

/-- The integer `val = Math.round(sample)` of the 24-bit branch (part_005
line 388), after clip and scale. -/
def written24 (s : ℚ) : ℤ := jsRound (pcmScale24 (clip s))

/-- The 32-bit branch writes the clipped sample itself, unscaled, as an
IEEE float (part_005 line 394); at the value level that is `clip s`. -/
def written32 (s : ℚ) : ℚ := clip s

/-- The wrap `DataView.setInt16` applies to an out-of-range integer:
reduction into the signed 16-bit range modulo 2^16. -/
def jsToInt16 (v : ℤ) : ℤ := (v + 32768) % 65536 - 32768

/-- The two bytes `setInt16(offset, v, true)` stores: the little-endian
bytes of `v` reduced into two's-complement 16-bit form. -/
def leBytes16 (v : ℤ) : List ℕ :=
  [(v % 65536 % 256).toNat, (v % 65536 / 256).toNat]

/-- The three bytes of the 24-bit branch (part_005 lines 389-391):
`val & 0xFF`, `(val >> 8) & 0xFF`, `(val >> 16) & 0xFF`, with JavaScript's
two's-complement mask and arithmetic-shift semantics (non-negative residue
`% 256` and floor division). -/
def bytes24 (v : ℤ) : List ℕ :=
  [(v % 256).toNat, (v / 256 % 256).toNat, (v / 65536 % 256).toNat]

/-- Bytes of one encoded sample at the given bit depth (the body of the
interleaving loop, part_005 lines 378-396).  The IEEE-754 byte image of a
32-bit float write is outside the rational model and is supplied as the
`floatBytes` parameter. -/
def sampleBytes (bitDepth : ℕ) (floatBytes : ℚ → List ℕ) (s : ℚ) : List ℕ :=
  if bitDepth = 16 then leBytes16 (written16 s)
  else if bitDepth = 24 then bytes24 (written24 s)
  else floatBytes (clip s)

/-- A rendered PCM buffer (`AudioBuffer` image): channel count, sample
rate, frame count and channel-major sample data. -/
structure RenderedBuffer where
  numChannels : ℕ
  sampleRate : ℕ
  frames : ℕ
  data : List (List ℚ)
deriving DecidableEq

/-- The interleaved data section of `encodeWAV` (part_005 lines 371-398):
for each frame, for each channel, the bytes of that sample. -/
def wavDataBytes (floatBytes : ℚ → List ℕ) (buf : RenderedBuffer)
    (bitDepth : ℕ) : List ℕ :=
  (List.range buf.frames).flatMap fun i =>
    (List.range buf.numChannels).flatMap fun ch =>
      sampleBytes bitDepth floatBytes ((buf.data.getD ch []).getD i 0)

/-- `AudioEngine.encodeWAV` (part_005 lines 340-401): header followed by
interleaved sample data. -/
def encodeWAV (floatBytes : ℚ → List ℕ) (buf : RenderedBuffer)
    (bitDepth : ℕ) : List ℕ :=
  wavHeader buf.numChannels buf.sampleRate bitDepth buf.frames ++
  wavDataBytes floatBytes buf bitDepth

/-- `BandConfig` (src/unnamed/part_005 lines 1-8 of types.ts). -/
structure BandConfig where
  id : String
  name : String
  frequencyRange : String
  pan : ℚ
  color : String
  gain : ℚ
deriving DecidableEq

/-- The mutable fields of the `AudioEngine` class of part_005 that the
transport entry points touch.  Node handles are modelled by presence flags
(`ctxAlive` for `audioContext`, `sourceNode`), the decoded asset by an
optional `RenderedBuffer`, and the two analyser taps by optional sample
windows (their most recent time-domain snapshot). -/
structure Engine where
  ctxAlive : Bool
  sourceNode : Bool
  buffer : Option RenderedBuffer
  analyserL : Option (List ℝ)
  analyserR : Option (List ℝ)
  startTime : ℚ
  pauseTime : ℚ
  isPlaying : Bool
  currentBands : List BandConfig
  currentHaas : Bool
  currentWidth : ℚ
  currentBypass : Bool

/-- The engine state right after the constructor (part_005 lines 27-54):
a live context, no buffer, no source, no analysers, width 1, not playing. -/
def initEngine : Engine :=
  { ctxAlive := true
    sourceNode := false
    buffer := none
    analyserL := none
    analyserR := none
    startTime := 0
    pauseTime := 0
    isPlaying := false
    currentBands := []
    currentHaas := false
    currentWidth := 1
    currentBypass := false }

/-- `getDuration` (part_005 lines 68-70): buffer duration or 0. -/
def engineDuration (e : Engine) : ℚ :=
  match e.buffer with
  | some b => (b.frames : ℚ) / (b.sampleRate : ℚ)
  | none => 0

/-- `AudioEngine.play` (part_005 lines 176-229).  The guard
`if (!this.audioContext || !this.audioBuffer) return;` makes the call a
no-op without a loaded buffer; otherwise the realtime graph is rebuilt:
bands stored, a fresh source and fresh analyser taps created (their window
contents are runtime data, passed in as `wL`/`wR`), the start time set from
`pauseTime % duration`, and playback marked active. -/
def enginePlay (now : ℚ) (wL wR : List ℝ) (bands : List BandConfig)
    (e : Engine) : Engine :=
  if e.ctxAlive = false ∨ e.buffer = none then e
  else
    { e with
      currentBands := bands
      sourceNode := true
      analyserL := some wL
      analyserR := some wR
      startTime := now - jsFmod e.pauseTime (engineDuration e)
      isPlaying := true }

/-- `AudioEngine.stop` (part_005 lines 248-255): stop and drop the source
node, reset `pauseTime`, clear `isPlaying`.  The analyser fields are not
touched. -/
def engineStop (e : Engine) : Engine :=
  { e with sourceNode := false, pauseTime := 0, isPlaying := false }

/-- `AudioEngine.getPhaseCorrelation` (part_005 lines 293-306): return 1
when either analyser tap is absent, otherwise the correlation of the two
analyser windows. -/
noncomputable def enginePhaseCorrelation (e : Engine) : ℝ :=
  match e.analyserL, e.analyserR with
  | some l, some r => phaseCorrelation l r
  | _, _ => 1

/-- `AudioEngine.exportAudio` (part_005 lines 311-338): `null` and no state
change without a buffer; otherwise render the buffer through the offline
graph (the offline `OfflineAudioContext` rendering is external Web Audio
machinery, abstracted as `render`) and encode it.  The method never writes
any engine field. -/
def exportWav (render : RenderedBuffer → RenderedBuffer)
    (floatBytes : ℚ → List ℕ) (e : Engine) (bitDepth : ℕ) :
    Option (List ℕ) × Engine :=
  match e.buffer with
  | none => (none, e)
  | some b => (some (encodeWAV floatBytes (render b) bitDepth), e)

/-- Claim C8: for each of the four band ids the filter builder returns an
ordered series-connected list of biquad stages with Q = 0.707; the edge
bands `low` and `high` get exactly two stages (two lowpass at 250 Hz,
resp. two highpass at 8000 Hz) and the interior bands get exactly four
stages with the two high-pass stages preceding the two low-pass stages
(250/2000 Hz for `mid-low`, 2000/8000 Hz for `mid-high`); the cutoffs are
fixed constants, and the realtime builder produces the same stage lists. -/
theorem filter_bank_spec :
    ((createBandFilters ("low")).map FilterStage.kind =
        [FilterKind.lowpass, FilterKind.lowpass] ∧
      (createBandFilters ("low")).map FilterStage.frequency = [250, 250] ∧
      (createBandFilters ("low")).length = 2) ∧
    ((createBandFilters ("mid-low")).map FilterStage.kind =
        [FilterKind.highpass, FilterKind.highpass,
         FilterKind.lowpass, FilterKind.lowpass] ∧
      (createBandFilters ("mid-low")).map FilterStage.frequency =
        [250, 250, 2000, 2000] ∧
      (createBandFilters ("mid-low")).length = 4) ∧
    ((createBandFilters ("mid-high")).map FilterStage.kind =
        [FilterKind.highpass, FilterKind.highpass,
         FilterKind.lowpass, FilterKind.lowpass] ∧
      (createBandFilters ("mid-high")).map FilterStage.frequency =
        [2000, 2000, 8000, 8000] ∧
      (createBandFilters ("mid-high")).length = 4) ∧
    ((createBandFilters ("high")).map FilterStage.kind =
        [FilterKind.highpass, FilterKind.highpass] ∧
      (createBandFilters ("high")).map FilterStage.frequency = [8000, 8000] ∧
      (createBandFilters ("high")).length = 2) ∧
    (∀ id : String, ∀ st ∈ createBandFilters id, st.q = 707 / 1000) ∧
    seriesConnections (createBandFilters ("mid-low")) = [(0, 1), (1, 2), (2, 3)] ∧
    seriesConnections (createBandFilters ("low")) = [(0, 1)] ∧
    (∀ id : String, createBandFiltersRT id = createBandFilters id) := by
  refine ⟨?_, ?_, ?_, ?_, ?_, ?_, ?_, fun id => rfl⟩
  · exact ⟨rfl, rfl, rfl⟩
  · exact ⟨rfl, rfl, rfl⟩
  · exact ⟨rfl, rfl, rfl⟩
  · exact ⟨rfl, rfl, rfl⟩
  · intro id st hst
    unfold createBandFilters at hst
    split_ifs at hst <;> fin_cases hst <;> rfl
  · rfl
  · rfl

set_option maxRecDepth 40000 in
/-- Witness for `filter_bank_spec` at band id `low` and its first stage. -/
theorem filter_bank_spec_witness : (cf FilterKind.lowpass 250).q = 707 / 1000 :=
  filter_bank_spec.2.2.2.2.1 ("low") (cf FilterKind.lowpass 250)
    (by with_unfolding_all decide)

/-- Claim C7: for every graph the engine constructs and every Haas setting,
the `low` band chain contains no delay node; every other band gets exactly
one delay node, sitting only on the right-channel path, with delay 0.015 s
when Haas is enabled and 0 (pass-through) when disabled; the realtime
`play` wiring agrees with the shared `createGraph` wiring. -/
theorem haas_wiring_spec :
    (∀ haas : Bool, bandChainShape ("low") haas =
      { delayNodeCount := 0, leftPathDelay := none, rightPathDelay := none }) ∧
    (∀ (id : String) (haas : Bool), id ≠ "low" →
      (bandChainShape id haas).delayNodeCount = 1 ∧
      (bandChainShape id haas).leftPathDelay = none ∧
      (bandChainShape id haas).rightPathDelay =
        some (if haas then 15 / 1000 else 0)) ∧
    (∀ (id : String) (haas : Bool), bandChainShapeRT id haas = bandChainShape id haas) := by
  refine ⟨fun haas => ?_, fun id haas h => ?_, fun id haas => rfl⟩
  · simp [bandChainShape]
  · simp [bandChainShape, h]

/-- Witness for `haas_wiring_spec` at band id `mid-low` with Haas on. -/
theorem haas_wiring_spec_witness :
    (bandChainShape ("mid-low") true).rightPathDelay =
      some (if true then 15 / 1000 else 0) ∧
    (bandChainShape ("mid-low") true).delayNodeCount = 1 := by
  have h := haas_wiring_spec.2.1 ("mid-low") true (by decide)
  exact ⟨h.2.2, h.1⟩

/-- Claim C3 counterexample: the engine never clamps the pan product.  With
base pan 1 and width 1.5 the shared `createGraph` path applies pan 1.5,
not `clamp(1.5, -1, 1) = 1`; and with base pan 0.5 the realtime engine
(which clamps the width itself to [0,1]) applies pan 0.5 while the claimed
formula gives `clamp(0.75, -1, 1) = 0.75`. -/
theorem effective_pan_clamp_cex :
    createGraphPan 1 (setGlobalWidthStore (3 / 2)) = 3 / 2 ∧
    specClamp (1 * (3 / 2)) (-1) 1 = 1 ∧
    ¬ (createGraphPan 1 (setGlobalWidthStore (3 / 2)) =
        specClamp (1 * (3 / 2)) (-1) 1) ∧
    servicesEffectivePan (1 / 2) (servicesClampWidth (3 / 2)) = 1 / 2 ∧
    specClamp (1 / 2 * (3 / 2)) (-1) 1 = 3 / 4 ∧
    ¬ (servicesEffectivePan (1 / 2) (servicesClampWidth (3 / 2)) =
        specClamp (1 / 2 * (3 / 2)) (-1) 1) := by
  with_unfolding_all decide

/-- Claim C3 (amended): the pan product is never clamped.  The shared
`createGraph` path applies `basePan * width` as-is; the realtime engine
clamps the incoming width to [0,1] in `setGlobalWidth` (which agrees with
the spec clamp on the width), so for a base pan in [-1,1] the pan it
applies always lies in [-1,1] and is a fixed point of the spec clamp. -/
theorem effective_pan_spec :
    (∀ b w : ℚ, createGraphPan b w = b * w) ∧
    (∀ w : ℚ, servicesClampWidth w = specClamp w 0 1) ∧
    (∀ b w : ℚ, -1 ≤ b → b ≤ 1 →
      -1 ≤ servicesEffectivePan b (servicesClampWidth w) ∧
      servicesEffectivePan b (servicesClampWidth w) ≤ 1 ∧
      servicesEffectivePan b (servicesClampWidth w) =
        specClamp (servicesEffectivePan b (servicesClampWidth w)) (-1) 1) := by
  refine ⟨fun b w => rfl, fun w => rfl, fun b w hb1 hb2 => ?_⟩
  have hcw : 0 ≤ servicesClampWidth w ∧ servicesClampWidth w ≤ 1 := by
    unfold servicesClampWidth jsMax jsMin
    split_ifs <;> constructor <;> linarith
  obtain ⟨hcw1, hcw2⟩ := hcw
  have h1 : -1 ≤ servicesEffectivePan b (servicesClampWidth w) := by
    unfold servicesEffectivePan; nlinarith
  have h2 : servicesEffectivePan b (servicesClampWidth w) ≤ 1 := by
    unfold servicesEffectivePan; nlinarith
  refine ⟨h1, h2, ?_⟩
  unfold specClamp jsMax jsMin
  split_ifs <;> linarith

/-- Witness for `effective_pan_spec` at base pan 1/2, width 3/4. -/
theorem effective_pan_spec_witness :
    -1 ≤ servicesEffectivePan (1 / 2) (servicesClampWidth (3 / 4)) ∧
    servicesEffectivePan (1 / 2) (servicesClampWidth (3 / 4)) ≤ 1 := by
  have h := effective_pan_spec.2.2 (1 / 2) (3 / 4)
    (by with_unfolding_all decide) (by with_unfolding_all decide)
  exact ⟨h.1, h.2.1⟩

/-- Claim C9: with no audio buffer loaded, `exportAudio` returns null
without changing engine state, and `play` returns without doing anything,
for every bit depth and every rendering environment. -/
theorem no_buffer_noop :
    ∀ (render : RenderedBuffer → RenderedBuffer) (floatBytes : ℚ → List ℕ)
      (e : Engine) (bitDepth : ℕ) (now : ℚ) (wL wR : List ℝ)
      (bands : List BandConfig),
      e.buffer = none →
      exportWav render floatBytes e bitDepth = (none, e) ∧
      enginePlay now wL wR bands e = e := by
  intro render floatBytes e bitDepth now wL wR bands h
  constructor
  · unfold exportWav
    rw [h]
  · unfold enginePlay
    rw [if_pos (Or.inr h)]

/-- Witness for `no_buffer_noop` on the freshly constructed engine. -/
theorem no_buffer_noop_witness :
    exportWav (fun b => b) (fun _ => []) initEngine 16 = (none, initEngine) ∧
    enginePlay 0 [] [] [] initEngine = initEngine :=
  no_buffer_noop (fun b => b) (fun _ => []) initEngine 16 0 [] [] [] rfl

@[simp] lemma applyCorrection_playing (s : LoopState) :
    (applyCorrection s).playing = s.playing := by
  simp only [applyCorrection]
  split_ifs <;> rfl

@[simp] lemma applyCorrection_haasEnabled (s : LoopState) :
    (applyCorrection s).haasEnabled = false := by
  simp only [applyCorrection]
  split_ifs with h1 h2 h3 <;> simp_all

@[simp] lemma applyCorrection_masterWidth (s : LoopState) :
    (applyCorrection s).masterWidth = widthStep s.masterWidth := by
  simp only [applyCorrection, widthStep]
  split_ifs <;> simp_all

@[simp] lemma applyCorrection_cooldown (s : LoopState) :
    (applyCorrection s).cooldown = 60 := by
  simp [applyCorrection]

@[simp] lemma applyCorrection_autoCorrecting (s : LoopState) :
    (applyCorrection s).autoCorrecting = true := by
  simp [applyCorrection]

lemma loopTick_not_playing (s : LoopState) (c : ℚ) (hp : s.playing = false) :
    loopTick s c = s := by
  simp [loopTick, hp]

lemma loopTick_fire (s : LoopState) (c : ℚ) (hp : s.playing = true)
    (hm : s.monoSafeMode = true) (hb : s.bypass = false) (hc : c < 0)
    (hcd : s.cooldown ≤ 0) :
    (loopTick s c).haasEnabled = false ∧
    (loopTick s c).masterWidth = widthStep s.masterWidth ∧
    (loopTick s c).cooldown = 59 ∧
    (loopTick s c).autoCorrecting = true := by
  simp only [loopTick, hp, safeModeCheck]
  simp only [hm, hb, hc, hcd, and_self, and_true, true_and, if_true,
    applyCorrection_cooldown]
  norm_num

lemma loopTick_blocked (s : LoopState) (c : ℚ) (hcd : 0 < s.cooldown) :
    (loopTick s c).haasEnabled = s.haasEnabled ∧
    (loopTick s c).masterWidth = s.masterWidth ∧
    (loopTick s c).playing = s.playing ∧
    (s.playing = true → (loopTick s c).cooldown = s.cooldown - 1) := by
  cases hp : s.playing with
  | false => rw [loopTick_not_playing s c hp]; simp [hp]
  | true =>
    simp only [loopTick, hp, safeModeCheck]
    have hno : ¬ s.cooldown ≤ 0 := not_le.mpr hcd
    simp [hno, hcd]

lemma loopTick_playing_eq (s : LoopState) (c : ℚ) :
    (loopTick s c).playing = s.playing := by
  simp only [loopTick, safeModeCheck]
  split_ifs <;> simp

lemma loopTick_width_cases (s : LoopState) (c : ℚ) :
    (loopTick s c).masterWidth = s.masterWidth ∨
    (loopTick s c).masterWidth = widthStep s.masterWidth := by
  simp only [loopTick, safeModeCheck]
  split_ifs <;> simp

lemma widthStep_le (w : ℚ) : widthStep w ≤ w := by
  unfold widthStep jsMax
  split_ifs <;> linarith

lemma widthStep_ge (w : ℚ) (h : 1 / 2 ≤ w) : 1 / 2 ≤ widthStep w := by
  unfold widthStep jsMax
  split_ifs <;> linarith

lemma widthStep_lt (w : ℚ) (h : 1 / 2 < w) : widthStep w < w := by
  unfold widthStep jsMax
  split_ifs <;> linarith

lemma widthStep_fix (w : ℚ) (h : w ≤ 1 / 2) : widthStep w = w := by
  unfold widthStep
  rw [if_neg (not_lt.mpr h)]

@[simp] lemma applyCorrection_monoSafeMode (s : LoopState) :
    (applyCorrection s).monoSafeMode = s.monoSafeMode := by
  simp only [applyCorrection]
  split_ifs <;> rfl

@[simp] lemma applyCorrection_bypass (s : LoopState) :
    (applyCorrection s).bypass = s.bypass := by
  simp only [applyCorrection]
  split_ifs <;> rfl

lemma loopTick_monoSafeMode (s : LoopState) (c : ℚ) :
    (loopTick s c).monoSafeMode = s.monoSafeMode := by
  simp only [loopTick, safeModeCheck]
  split_ifs <;> simp

lemma loopTick_bypass (s : LoopState) (c : ℚ) :
    (loopTick s c).bypass = s.bypass := by
  simp only [loopTick, safeModeCheck]
  split_ifs <;> simp

lemma reactTick_masterWidth (s : LoopState) (c : ℚ) :
    (reactTick s c).masterWidth = (loopTick s c).masterWidth := by
  simp only [reactTick]
  split_ifs <;> rfl

lemma reactTick_haasEnabled (s : LoopState) (c : ℚ) :
    (reactTick s c).haasEnabled = (loopTick s c).haasEnabled := by
  simp only [reactTick]
  split_ifs <;> rfl

lemma reactTick_autoCorrecting (s : LoopState) (c : ℚ) :
    (reactTick s c).autoCorrecting = (loopTick s c).autoCorrecting := by
  simp only [reactTick]
  split_ifs <;> rfl

lemma reactTick_playing (s : LoopState) (c : ℚ) :
    (reactTick s c).playing = s.playing := by
  simp only [reactTick]
  split_ifs <;> simp [loopTick_playing_eq]

lemma reactTick_monoSafeMode (s : LoopState) (c : ℚ) :
    (reactTick s c).monoSafeMode = s.monoSafeMode := by
  simp only [reactTick]
  split_ifs <;> simp [loopTick_monoSafeMode]

lemma reactTick_bypass (s : LoopState) (c : ℚ) :
    (reactTick s c).bypass = s.bypass := by
  simp only [reactTick]
  split_ifs <;> simp [loopTick_bypass]

lemma reactTick_fire (s : LoopState) (c : ℚ) (hp : s.playing = true)
    (hm : s.monoSafeMode = true) (hb : s.bypass = false) (hc : c < 0)
    (hcd : s.cooldown ≤ 0) :
    (reactTick s c).haasEnabled = false ∧
    (reactTick s c).masterWidth = widthStep s.masterWidth ∧
    (reactTick s c).autoCorrecting = true ∧
    (s.haasEnabled = false ∧ s.masterWidth ≤ 1 / 2 →
      (reactTick s c).cooldown = 59) ∧
    (s.haasEnabled = true ∨ 1 / 2 < s.masterWidth →
      (reactTick s c).cooldown = 0) := by
  obtain ⟨h1, h2, h3, h4⟩ := loopTick_fire s c hp hm hb hc hcd
  refine ⟨?_, ?_, ?_, ?_, ?_⟩
  · rw [reactTick_haasEnabled]; exact h1
  · rw [reactTick_masterWidth]; exact h2
  · rw [reactTick_autoCorrecting]; exact h4
  · rintro ⟨hh, hw⟩
    have hdep : (loopTick s c).haasEnabled = s.haasEnabled ∧
        (loopTick s c).masterWidth = s.masterWidth := by
      constructor
      · rw [h1, hh]
      · rw [h2, widthStep_fix _ hw]
    simp only [reactTick]
    rw [if_pos hdep]
    exact h3
  · intro hdep
    have hne : ¬ ((loopTick s c).haasEnabled = s.haasEnabled ∧
        (loopTick s c).masterWidth = s.masterWidth) := by
      rintro ⟨ha, hwq⟩
      rcases hdep with hh | hw
      · rw [h1, hh] at ha
        exact absurd ha (by simp)
      · rw [h2] at hwq
        exact absurd hwq (ne_of_lt (widthStep_lt _ hw))
    simp only [reactTick]
    rw [if_neg hne]

lemma reactRun_nil (s : LoopState) : reactRun s [] = s := rfl

lemma reactRun_cons (s : LoopState) (c : ℚ) (cs : List ℚ) :
    reactRun s (c :: cs) = reactRun (reactTick s c) cs := rfl

lemma reactTick_blocked (s : LoopState) (c : ℚ) (hcd : 0 < s.cooldown) :
    (reactTick s c).haasEnabled = s.haasEnabled ∧
    (reactTick s c).masterWidth = s.masterWidth ∧
    (s.playing = true → (reactTick s c).cooldown = s.cooldown - 1) := by
  obtain ⟨h1, h2, h3, h4⟩ := loopTick_blocked s c hcd
  have hdep : (loopTick s c).haasEnabled = s.haasEnabled ∧
      (loopTick s c).masterWidth = s.masterWidth := ⟨h1, h2⟩
  simp only [reactTick]
  rw [if_pos hdep]
  exact ⟨h1, h2, h4⟩

lemma reactRun_blocked :
    ∀ (inputs : List ℚ) (s : LoopState), s.playing = true →
    (inputs.length : ℤ) ≤ s.cooldown →
    (reactRun s inputs).masterWidth = s.masterWidth ∧
    (reactRun s inputs).haasEnabled = s.haasEnabled ∧
    (reactRun s inputs).cooldown = s.cooldown - inputs.length := by
  intro inputs
  induction inputs with
  | nil => intro s hp hlen; simp [reactRun_nil]
  | cons c cs ih =>
    intro s hp hlen
    have hpos : 0 < s.cooldown := by
      simp only [List.length_cons] at hlen
      push_cast at hlen
      omega
    obtain ⟨h1, h2, h3⟩ := reactTick_blocked s c hpos
    have hplay : (reactTick s c).playing = true := by
      rw [reactTick_playing]; exact hp
    have hcool : (reactTick s c).cooldown = s.cooldown - 1 := h3 hp
    have hlen2 : ((cs.length : ℤ)) ≤ (reactTick s c).cooldown := by
      rw [hcool]
      simp only [List.length_cons] at hlen
      push_cast at hlen ⊢
      omega
    obtain ⟨g1, g2, g3⟩ := ih (reactTick s c) hplay hlen2
    rw [reactRun_cons]
    refine ⟨g1.trans h2, g2.trans h1, ?_⟩
    rw [g3, hcool]
    simp only [List.length_cons]
    push_cast
    ring

/-- Claim C1 (amended): the trigger reads the tick's instantaneous
correlation, not the smoothed value.  For every monitor tick with playback
active, monoSafeMode on, bypass off, the instantaneous correlation
reading < 0 and no active cooldown, exactly one correction fires: Haas
ends up disabled, the width is multiplied by 0.95 and floored at 0.5 when
it was above 0.5 (otherwise untouched), and the correcting flag is
raised.  A cooldown of 60 ticks is set, but it survives the tick only
when the correction changed neither Haas nor the width (then it is
observable as 59 after the same tick's decrement): a correction that
disabled Haas or lowered the width restarts the monitoring effect (both
are in its dependency array) and resets the closure-local cooldown to 0,
so another correction can fire on the very next tick.  While a surviving
cooldown is positive, no tick changes Haas or the width even if
correlation stays negative. -/
theorem safety_correction_tick :
    (∀ (s : LoopState) (corr : ℚ),
      s.playing = true → s.monoSafeMode = true → s.bypass = false →
      corr < 0 → s.cooldown ≤ 0 →
      (reactTick s corr).haasEnabled = false ∧
      ((1 : ℚ) / 2 < s.masterWidth →
        (reactTick s corr).masterWidth = jsMax (1 / 2) (s.masterWidth * (19 / 20))) ∧
      (s.masterWidth ≤ 1 / 2 →
        (reactTick s corr).masterWidth = s.masterWidth) ∧
      (reactTick s corr).autoCorrecting = true ∧
      (s.haasEnabled = false ∧ s.masterWidth ≤ 1 / 2 →
        (reactTick s corr).cooldown = 59) ∧
      (s.haasEnabled = true ∨ 1 / 2 < s.masterWidth →
        (reactTick s corr).cooldown = 0)) ∧
    (∀ (s : LoopState) (corr : ℚ), 0 < s.cooldown →
      (reactTick s corr).haasEnabled = s.haasEnabled ∧
      (reactTick s corr).masterWidth = s.masterWidth) := by
  constructor
  · intro s corr hp hm hb hc hcd
    obtain ⟨h1, h2, h3, h4, h5⟩ := reactTick_fire s corr hp hm hb hc hcd
    refine ⟨h1, ?_, ?_, h3, h4, h5⟩
    · intro hw
      rw [h2]
      unfold widthStep
      rw [if_pos hw]
    · intro hw
      rw [h2, widthStep_fix _ hw]
  · intro s corr hcd
    obtain ⟨h1, h2, _⟩ := reactTick_blocked s corr hcd
    exact ⟨h1, h2⟩

set_option maxRecDepth 40000 in
/-- Witness for `safety_correction_tick`: a side-effecting correction
(Haas on, width 1) disables Haas and leaves no surviving cooldown, while
a no-op correction (Haas already off, width at the 0.5 floor) retains a
cooldown of 59. -/
theorem safety_correction_tick_witness :
    (reactTick (LoopState.mk true true false true 1 (-1) 0 false) (-(1 / 2))).haasEnabled
      = false ∧
    (reactTick (LoopState.mk true true false true 1 (-1) 0 false) (-(1 / 2))).cooldown
      = 0 ∧
    (reactTick (LoopState.mk true true false false (1 / 2) (-1) 0 false) (-(1 / 2))).cooldown
      = 59 := by
  have h1 := safety_correction_tick.1 (LoopState.mk true true false true 1 (-1) 0 false)
    (-(1 / 2)) rfl rfl rfl (by with_unfolding_all decide) (by decide)
  have h2 := safety_correction_tick.1
    (LoopState.mk true true false false (1 / 2) (-1) 0 false)
    (-(1 / 2)) rfl rfl rfl (by with_unfolding_all decide) (by decide)
  exact ⟨h1.1, h1.2.2.2.2.2 (Or.inl rfl),
    h2.2.2.2.2.1 ⟨rfl, by with_unfolding_all decide⟩⟩

set_option maxRecDepth 40000 in
/-- Claim C1 counterexample: a tick on which the smoothed correlation is
-1 (negative on any reading: it is still negative after this tick's
smoothing update), playback is active, monoSafeMode is on, bypass is off
and no cooldown is active, yet because the tick's instantaneous reading is
+1/2 no correction is performed: Haas stays enabled, the width stays 1 and
no cooldown is set.  (No state the loop writes changes, so no effect
restart is involved on this tick.) -/
theorem safety_smoothed_trigger_cex :
    (LoopState.mk true true false true 1 (-1) 0 false).playing = true ∧
    (LoopState.mk true true false true 1 (-1) 0 false).monoSafeMode = true ∧
    (LoopState.mk true true false true 1 (-1) 0 false).bypass = false ∧
    (LoopState.mk true true false true 1 (-1) 0 false).correlation < 0 ∧
    (LoopState.mk true true false true 1 (-1) 0 false).cooldown ≤ 0 ∧
    (reactTick (LoopState.mk true true false true 1 (-1) 0 false) (1 / 2)).haasEnabled
      = true ∧
    (reactTick (LoopState.mk true true false true 1 (-1) 0 false) (1 / 2)).masterWidth
      = 1 ∧
    (reactTick (LoopState.mk true true false true 1 (-1) 0 false) (1 / 2)).cooldown
      = 0 ∧
    (reactTick (LoopState.mk true true false true 1 (-1) 0 false) (1 / 2)).correlation
      < 0 := by
  with_unfolding_all decide

set_option maxRecDepth 150000 in
set_option maxHeartbeats 4000000 in
/-- Claim C4 (amended): with correlation held negative, monoSafeMode on
and bypass off while playing, the width never increases and never falls
below 0.5 once at or above it; while it is above 0.5 every tick fires a
correction that strictly lowers it by factor 0.95 (floored at 0.5) and
leaves no surviving cooldown (the width write restarts the monitoring
effect), so with correlation held at -0.5 the width decreases strictly
tick-over-tick from the default 1 and reaches exactly 0.5 on the 14th
tick (not earlier), then stops decreasing; once Haas is off and the width
is at the floor a correction changes nothing, its cooldown survives, and
the following 59 ticks change neither width nor Haas.  Corrections are
therefore not limited to one per 60-tick window while the width is being
reduced. -/
theorem width_damping_spec :
    (∀ (s : LoopState) (c : ℚ), (reactTick s c).masterWidth ≤ s.masterWidth) ∧
    (∀ (s : LoopState) (c : ℚ), 1 / 2 ≤ s.masterWidth →
      1 / 2 ≤ (reactTick s c).masterWidth) ∧
    (∀ (s : LoopState) (c : ℚ),
      s.playing = true → s.monoSafeMode = true → s.bypass = false →
      c < 0 → s.cooldown ≤ 0 → 1 / 2 < s.masterWidth →
      (reactTick s c).masterWidth = jsMax (1 / 2) (s.masterWidth * (19 / 20)) ∧
      (reactTick s c).masterWidth < s.masterWidth ∧
      (reactTick s c).cooldown = 0 ∧
      (reactTick s c).playing = true ∧
      (reactTick s c).monoSafeMode = true ∧
      (reactTick s c).bypass = false) ∧
    (∀ (s : LoopState) (c : ℚ),
      s.playing = true → s.monoSafeMode = true → s.bypass = false →
      c < 0 → s.cooldown ≤ 0 → s.haasEnabled = false → s.masterWidth ≤ 1 / 2 →
      (reactTick s c).masterWidth = s.masterWidth ∧
      (reactTick s c).cooldown = 59) ∧
    (widthStep^[14] 1 = 1 / 2 ∧ widthStep^[13] 1 ≠ 1 / 2) ∧
    ((∀ k ∈ List.range 14,
        (reactRun (LoopState.mk true true false true 1 (-(1 / 2)) 0 false)
            (List.replicate (k + 1) (-(1 / 2)))).masterWidth <
          (reactRun (LoopState.mk true true false true 1 (-(1 / 2)) 0 false)
            (List.replicate k (-(1 / 2)))).masterWidth) ∧
      (reactRun (LoopState.mk true true false true 1 (-(1 / 2)) 0 false)
          (List.replicate 13 (-(1 / 2)))).masterWidth ≠ 1 / 2 ∧
      (reactRun (LoopState.mk true true false true 1 (-(1 / 2)) 0 false)
          (List.replicate 14 (-(1 / 2)))).masterWidth = 1 / 2 ∧
      (reactRun (LoopState.mk true true false true 1 (-(1 / 2)) 0 false)
          (List.replicate 15 (-(1 / 2)))).masterWidth = 1 / 2 ∧
      (reactRun (LoopState.mk true true false true 1 (-(1 / 2)) 0 false)
          (List.replicate 15 (-(1 / 2)))).cooldown = 59) ∧
    (∀ (s : LoopState) (c : ℚ) (inputs : List ℚ),
      s.playing = true → s.monoSafeMode = true → s.bypass = false →
      c < 0 → s.cooldown ≤ 0 → s.haasEnabled = false → s.masterWidth ≤ 1 / 2 →
      (inputs.length : ℤ) ≤ 59 →
      (reactRun (reactTick s c) inputs).masterWidth = s.masterWidth ∧
      (reactRun (reactTick s c) inputs).haasEnabled = false ∧
      (reactRun (reactTick s c) inputs).cooldown = 59 - inputs.length) := by
  refine ⟨?_, ?_, ?_, ?_, ⟨?_, ?_⟩, ⟨?_, ?_, ?_, ?_, ?_⟩, ?_⟩
  · intro s c
    rw [reactTick_masterWidth]
    rcases loopTick_width_cases s c with h | h
    · exact le_of_eq h
    · rw [h]; exact widthStep_le _
  · intro s c h
    rw [reactTick_masterWidth]
    rcases loopTick_width_cases s c with hh | hh
    · rw [hh]; exact h
    · rw [hh]; exact widthStep_ge _ h
  · intro s c hp hm hb hc hcd hw
    obtain ⟨h1, h2, h3, h4, h5⟩ := reactTick_fire s c hp hm hb hc hcd
    refine ⟨?_, ?_, h5 (Or.inr hw), ?_, ?_, ?_⟩
    · rw [h2]
      unfold widthStep
      rw [if_pos hw]
    · rw [h2]; exact widthStep_lt _ hw
    · rw [reactTick_playing]; exact hp
    · rw [reactTick_monoSafeMode]; exact hm
    · rw [reactTick_bypass]; exact hb
  · intro s c hp hm hb hc hcd hh hw
    obtain ⟨h1, h2, h3, h4, h5⟩ := reactTick_fire s c hp hm hb hc hcd
    exact ⟨by rw [h2, widthStep_fix _ hw], h4 ⟨hh, hw⟩⟩
  · with_unfolding_all decide
  · with_unfolding_all decide
  · with_unfolding_all decide
  · with_unfolding_all decide
  · with_unfolding_all decide
  · with_unfolding_all decide
  · with_unfolding_all decide
  · intro s c inputs hp hm hb hc hcd hh hw hlen
    obtain ⟨h1, h2, h3, h4, h5⟩ := reactTick_fire s c hp hm hb hc hcd
    have hcool : (reactTick s c).cooldown = 59 := h4 ⟨hh, hw⟩
    have hplay : (reactTick s c).playing = true := by
      rw [reactTick_playing]; exact hp
    have hlen2 : (inputs.length : ℤ) ≤ (reactTick s c).cooldown := by
      rw [hcool]; exact hlen
    obtain ⟨g1, g2, g3⟩ := reactRun_blocked inputs (reactTick s c) hplay hlen2
    refine ⟨?_, g2.trans h1, ?_⟩
    · rw [g1, h2, widthStep_fix _ hw]
    · rw [g3, hcool]

set_option maxRecDepth 40000 in
/-- Witness for `width_damping_spec`: at width 1 a qualifying tick
strictly lowers the width, keeps it at or above 0.5, and leaves no
surviving cooldown. -/
theorem width_damping_spec_witness :
    (reactTick (LoopState.mk true true false false 1 1 0 false) (-(1 / 2))).masterWidth
      < 1 ∧
    1 / 2 ≤ (reactTick (LoopState.mk true true false false 1 1 0 false) (-(1 / 2))).masterWidth ∧
    (reactTick (LoopState.mk true true false false 1 1 0 false) (-(1 / 2))).cooldown
      = 0 := by
  have h3 := width_damping_spec.2.2.1 (LoopState.mk true true false false 1 1 0 false)
    (-(1 / 2)) rfl rfl rfl (by with_unfolding_all decide) (by decide)
    (by with_unfolding_all decide)
  have h2 := width_damping_spec.2.1 (LoopState.mk true true false false 1 1 0 false)
    (-(1 / 2)) (by with_unfolding_all decide)
  exact ⟨h3.2.1, h2, h3.2.2.1⟩

set_option maxRecDepth 40000 in
/-- Claim C4 counterexample: corrections are not limited to one per
60-tick cooldown window.  With correlation held at -1/2 (the smoothed
value stays negative), monoSafeMode on and bypass off, the first tick
lowers the width from 1 to 0.95; that masterWidth write restarts the
monitoring effect (masterWidth is in its dependency array), resetting the
closure-local cooldown to 0, so the very next tick fires a second
correction and lowers the width again to 0.9025 — two correction actions
on two consecutive ticks. -/
theorem width_one_per_window_cex :
    (reactTick (LoopState.mk true true false false 1 (-1) 0 false) (-(1 / 2))).masterWidth
      = 19 / 20 ∧
    (reactTick (LoopState.mk true true false false 1 (-1) 0 false) (-(1 / 2))).cooldown
      = 0 ∧
    (reactTick (LoopState.mk true true false false 1 (-1) 0 false) (-(1 / 2))).correlation
      < 0 ∧
    (reactTick (reactTick (LoopState.mk true true false false 1 (-1) 0 false) (-(1 / 2)))
        (-(1 / 2))).masterWidth = 361 / 400 ∧
    (361 / 400 : ℚ) < 19 / 20 := by
  refine ⟨?_, ?_, ?_, ?_, ?_⟩ <;> with_unfolding_all decide

lemma sq_sum_nonneg (l : List ℝ) : 0 ≤ (l.map fun x => x * x).sum := by
  apply List.sum_nonneg
  intro y hy
  simp only [List.mem_map] at hy
  obtain ⟨x, -, rfl⟩ := hy
  exact mul_self_nonneg x

lemma sq_sum_pos (l : List ℝ) (h : ∃ x ∈ l, x ≠ 0) :
    0 < (l.map fun x => x * x).sum := by
  induction l with
  | nil => simp at h
  | cons a t ih =>
    simp only [List.map_cons, List.sum_cons]
    rcases h with ⟨x, hx, hxne⟩
    rcases List.mem_cons.mp hx with rfl | hxt
    · have h1 : 0 < x * x := mul_self_pos.mpr hxne
      have h2 := sq_sum_nonneg t
      linarith
    · have h1 := ih ⟨x, hxt, hxne⟩
      have h2 := mul_self_nonneg a
      linarith

lemma zip_self_sq (l : List ℝ) :
    ((l.zip l).map fun p => p.1 * p.2) = l.map fun x => x * x := by
  induction l with
  | nil => rfl
  | cons a t ih => simp [List.zip_cons_cons, ih]

lemma zip_neg_sq (l : List ℝ) :
    ((l.zip (l.map fun x => -x)).map fun p => p.1 * p.2) =
      l.map fun x => -(x * x) := by
  induction l with
  | nil => rfl
  | cons a t ih => simp [List.zip_cons_cons, ih]

lemma neg_map_sq_sum (l : List ℝ) :
    ((l.map fun x => -x).map fun x => x * x).sum = (l.map fun x => x * x).sum := by
  rw [List.map_map]
  simp [Function.comp_def]

lemma sum_map_neg_sq (l : List ℝ) :
    (l.map fun x => -(x * x)).sum = -((l.map fun x => x * x).sum) := by
  induction l with
  | nil => simp
  | cons a t ih => simp [ih]; ring

lemma phaseCorrelation_self (l : List ℝ) (h : ∃ x ∈ l, x ≠ 0) :
    phaseCorrelation l l = 1 := by
  have hpos := sq_sum_pos l h
  simp only [phaseCorrelation, zip_self_sq]
  rw [Real.mul_self_sqrt (le_of_lt hpos), if_neg (ne_of_gt hpos)]
  exact div_self (ne_of_gt hpos)

lemma phaseCorrelation_anti (l : List ℝ) (h : ∃ x ∈ l, x ≠ 0) :
    phaseCorrelation l (l.map fun x => -x) = -1 := by
  have hpos := sq_sum_pos l h
  simp only [phaseCorrelation, zip_neg_sq, neg_map_sq_sum, sum_map_neg_sq]
  rw [Real.mul_self_sqrt (le_of_lt hpos), if_neg (ne_of_gt hpos)]
  rw [neg_div, div_self (ne_of_gt hpos)]

lemma phaseCorrelation_silent (l r : List ℝ) (hl : ∀ x ∈ l, x = 0) :
    phaseCorrelation l r = 1 := by
  have h0 : (l.map fun x => x * x).sum = 0 := by
    apply List.sum_eq_zero
    intro y hy
    simp only [List.mem_map] at hy
    obtain ⟨x, hx, rfl⟩ := hy
    rw [hl x hx]
    ring
  simp [phaseCorrelation, h0]

/-- Claim C2: `getPhaseCorrelation` computes
`Σ(L·R) / (sqrt(Σ L²) · sqrt(Σ R²))` with 1 on a zero denominator;
consequently it is 1 on every non-silent window with L = R, -1 on every
non-silent window with R = -L, and 1 (not NaN or undefined) on all-zero
silence. -/
theorem correlation_spec :
    (∀ l r : List ℝ, phaseCorrelation l r =
      if Real.sqrt ((l.map fun x => x * x).sum) *
          Real.sqrt ((r.map fun x => x * x).sum) = 0 then 1
      else (((l.zip r).map fun p => p.1 * p.2).sum) /
        (Real.sqrt ((l.map fun x => x * x).sum) *
          Real.sqrt ((r.map fun x => x * x).sum))) ∧
    (∀ l : List ℝ, (∃ x ∈ l, x ≠ 0) → phaseCorrelation l l = 1) ∧
    (∀ l : List ℝ, (∃ x ∈ l, x ≠ 0) →
      phaseCorrelation l (l.map fun x => -x) = -1) ∧
    (∀ l r : List ℝ, (∀ x ∈ l, x = 0) → (∀ x ∈ r, x = 0) →
      phaseCorrelation l r = 1) := by
  refine ⟨?_, phaseCorrelation_self, phaseCorrelation_anti,
    fun l r hl _ => phaseCorrelation_silent l r hl⟩
  intro l r
  simp only [phaseCorrelation]

/-- Witness for `correlation_spec` on the one-sample windows [1] and [0]. -/
theorem correlation_spec_witness :
    phaseCorrelation [1] [1] = 1 ∧
    phaseCorrelation [1] ([1].map fun x => -x) = -1 ∧
    phaseCorrelation [0] [0] = 1 := by
  refine ⟨correlation_spec.2.1 [1] ?_, correlation_spec.2.2.1 [1] ?_,
    correlation_spec.2.2.2 [0] [0] ?_ ?_⟩ <;> simp

/-- Claim C10 (amended): `getPhaseCorrelation` returns exactly 1 whenever
an analyser tap is absent, which is the case in the freshly constructed
engine (before any playback); but `stop()` does not clear the analyser
fields, so after teardown the guard no longer applies. -/
theorem analyser_guard_spec :
    (∀ e : Engine, e.analyserL = none ∨ e.analyserR = none →
      enginePhaseCorrelation e = 1) ∧
    (initEngine.analyserL = none ∧ initEngine.analyserR = none ∧
      enginePhaseCorrelation initEngine = 1) ∧
    (∀ e : Engine, (engineStop e).analyserL = e.analyserL ∧
      (engineStop e).analyserR = e.analyserR) := by
  refine ⟨?_, ⟨rfl, rfl, rfl⟩, fun e => ⟨rfl, rfl⟩⟩
  intro e h
  unfold enginePhaseCorrelation
  rcases h with h | h
  · rw [h]
  · rw [h]
    cases e.analyserL <;> rfl

/-- Witness for `analyser_guard_spec` on the freshly constructed engine. -/
theorem analyser_guard_spec_witness : enginePhaseCorrelation initEngine = 1 :=
  analyser_guard_spec.1 initEngine (Or.inl rfl)

/-- Claim C10 counterexample: in an engine whose analysers hold the
anti-correlated windows [1] and [-1] (a playback state), `stop()` leaves
both analyser fields present — the taps still exist after the graph is
torn down — and `getPhaseCorrelation` then computes -1 from the stale
window rather than returning the guard's 1. -/
theorem analyser_teardown_cex :
    (engineStop { initEngine with analyserL := some [1], analyserR := some [-1] }).analyserL
      ≠ none ∧
    (engineStop { initEngine with analyserL := some [1], analyserR := some [-1] }).analyserR
      ≠ none ∧
    enginePhaseCorrelation
      (engineStop { initEngine with analyserL := some [1], analyserR := some [-1] })
      = -1 ∧
    ((-1 : ℝ) ≠ 1) := by
  have hcorr : phaseCorrelation [1] [-1] = -1 := by
    have h := phaseCorrelation_anti [1] (by simp)
    simpa using h
  refine ⟨by simp [engineStop], by simp [engineStop], ?_, by norm_num⟩
  show enginePhaseCorrelation _ = -1
  rw [show enginePhaseCorrelation
      (engineStop { initEngine with analyserL := some [1], analyserR := some [-1] })
      = phaseCorrelation [1] [-1] from rfl]
  exact hcorr

lemma decodeLE_leU32 (m : ℕ) (h : m < 4294967296) : decodeLE (leU32 m) = m := by
  simp only [decodeLE, leU32, List.foldr]
  omega

lemma clip_bounds (s : ℚ) : -1 ≤ clip s ∧ clip s ≤ 1 := by
  unfold clip jsMax jsMin
  split_ifs <;> constructor <;> linarith

lemma written16_range (s : ℚ) : -32768 ≤ written16 s ∧ written16 s ≤ 32767 := by
  obtain ⟨hc1, hc2⟩ := clip_bounds s
  unfold written16 pcmScale16 jsTrunc
  split_ifs with h1 h2 h2
  · constructor
    · have hfl : ⌊-(clip s * 32768)⌋ < 32769 := by
        rw [Int.floor_lt]
        push_cast
        linarith
      omega
    · have hnn : (0 : ℤ) ≤ ⌊-(clip s * 32768)⌋ := by
        rw [Int.le_floor]
        push_cast
        linarith
      omega
  · exact absurd (by linarith : clip s * 32768 < 0) h2
  · exact absurd h2 (by push_neg at h1; nlinarith)
  · constructor
    · have hnn : (0 : ℤ) ≤ ⌊clip s * 32767⌋ := by
        rw [Int.le_floor]
        push_cast
        push_neg at h1
        nlinarith
      omega
    · have hfl : ⌊clip s * 32767⌋ < 32768 := by
        rw [Int.floor_lt]
        push_cast
        linarith
      omega

lemma jsToInt16_id (v : ℤ) (h1 : -32768 ≤ v) (h2 : v ≤ 32767) :
    jsToInt16 v = v := by
  unfold jsToInt16
  omega

lemma written24_range (s : ℚ) : -8388608 ≤ written24 s ∧ written24 s ≤ 8388607 := by
  obtain ⟨hc1, hc2⟩ := clip_bounds s
  unfold written24 pcmScale24 jsRound
  split_ifs with h1
  · constructor
    · rw [Int.le_floor]
      push_cast
      linarith
    · have hfl : ⌊clip s * 8388608 + 1 / 2⌋ < 8388608 := by
        rw [Int.floor_lt]
        push_cast
        linarith
      omega
  · push_neg at h1
    constructor
    · have hnn : (0 : ℤ) ≤ ⌊clip s * 8388607 + 1 / 2⌋ := by
        rw [Int.le_floor]
        push_cast
        nlinarith
      omega
    · have hfl : ⌊clip s * 8388607 + 1 / 2⌋ < 8388608 := by
        rw [Int.floor_lt]
        push_cast
        linarith
      omega

lemma bytes24_decode (v : ℤ) : (decodeLE (bytes24 v) : ℤ) = v % 16777216 := by
  simp only [decodeLE, bytes24, List.foldr]
  have n0 : 0 ≤ v % 256 := Int.emod_nonneg v (by norm_num)
  have n1 : 0 ≤ v / 256 % 256 := Int.emod_nonneg _ (by norm_num)
  have n2 : 0 ≤ v / 65536 % 256 := Int.emod_nonneg _ (by norm_num)
  push_cast [Int.toNat_of_nonneg n0, Int.toNat_of_nonneg n1,
    Int.toNat_of_nonneg n2]
  omega

set_option maxRecDepth 400000 in
set_option maxHeartbeats 2000000 in
/-- Claim C5: the encoder emits a 44-byte header with "RIFF" at bytes 0-3,
the little-endian u32 `36 + dataSize` at bytes 4-7, "WAVE" at bytes 8-11,
fmt subchunk size 16 at bytes 16-19, AudioFormat 1 for 16/24-bit and 3 for
32-bit at bytes 20-21, and `dataSize = frames * blockAlign` at bytes
40-43; in particular a 2-channel 44100 Hz 16-bit 100-frame render has
dataSize 400, total file size 444 bytes and AudioFormat field 1. -/
theorem wav_header_spec :
    (∀ (sr F d : ℕ), d = 16 ∨ d = 24 ∨ d = 32 →
      (wavHeader 2 sr d F).length = 44 ∧
      (wavHeader 2 sr d F).take 4 = [82, 73, 70, 70] ∧
      ((wavHeader 2 sr d F).drop 4).take 4 = leU32 (36 + F * (2 * (d / 8))) ∧
      ((wavHeader 2 sr d F).drop 8).take 4 = [87, 65, 86, 69] ∧
      ((wavHeader 2 sr d F).drop 16).take 4 = leU32 16 ∧
      ((wavHeader 2 sr d F).drop 20).take 2 = leU16 (if d = 32 then 3 else 1) ∧
      ((wavHeader 2 sr d F).drop 40).take 4 = leU32 (F * (2 * (d / 8))) ∧
      (36 + F * (2 * (d / 8)) < 4294967296 →
        decodeLE (((wavHeader 2 sr d F).drop 4).take 4) = 36 + F * (2 * (d / 8)))) ∧
    ((encodeWAV (fun _ => [])
        (RenderedBuffer.mk 2 44100 100
          [List.replicate 100 0, List.replicate 100 0]) 16).length = 444 ∧
      (wavDataBytes (fun _ => [])
        (RenderedBuffer.mk 2 44100 100
          [List.replicate 100 0, List.replicate 100 0]) 16).length = 400 ∧
      ((wavHeader 2 44100 16 100).drop 20).take 2 = [1, 0] ∧
      ((wavHeader 2 44100 16 100).drop 40).take 4 = [144, 1, 0, 0]) := by
  constructor
  · intro sr F d hd
    rcases hd with rfl | rfl | rfl <;>
      exact ⟨rfl, rfl, rfl, rfl, rfl, rfl, rfl, fun h => decodeLE_leU32 _ h⟩
  · refine ⟨?_, ?_, ?_, ?_⟩
    · with_unfolding_all decide
    · with_unfolding_all decide
    · decide
    · decide

/-- Witness for `wav_header_spec` at a 44100 Hz, 16-bit, 100-frame header. -/
theorem wav_header_spec_witness :
    (wavHeader 2 44100 16 100).take 4 = [82, 73, 70, 70] ∧
    decodeLE (((wavHeader 2 44100 16 100).drop 4).take 4) =
      36 + 100 * (2 * (16 / 8)) := by
  have h := wav_header_spec.1 44100 100 16 (Or.inl rfl)
  exact ⟨h.2.1, h.2.2.2.2.2.2.2 (by decide)⟩

/-- Claim C6: every sample is first clipped to [-1,1]; a 16-bit sample is
then scaled by 32767 when non-negative and 32768 when negative, and the
resulting integer fits in a signed 16-bit word (the `setInt16` write does
not wrap); a 24-bit sample uses the same scheme with 0x7FFFFF/0x800000 and
is packed (after JavaScript `Math.round`) as 3 little-endian bytes of its
two's-complement 24-bit image; a 32-bit sample is the clipped value
itself, unscaled. -/
theorem sample_encoding_spec :
    ∀ s : ℚ,
      (-1 ≤ clip s ∧ clip s ≤ 1) ∧
      (0 ≤ clip s → pcmScale16 (clip s) = clip s * 32767) ∧
      (clip s < 0 → pcmScale16 (clip s) = clip s * 32768) ∧
      (-32768 ≤ written16 s ∧ written16 s ≤ 32767 ∧
        jsToInt16 (written16 s) = written16 s) ∧
      (0 ≤ clip s → pcmScale24 (clip s) = clip s * 8388607) ∧
      (clip s < 0 → pcmScale24 (clip s) = clip s * 8388608) ∧
      (-8388608 ≤ written24 s ∧ written24 s ≤ 8388607) ∧
      ((decodeLE (bytes24 (written24 s)) : ℤ) = written24 s % 16777216) ∧
      (bytes24 (written24 s)).length = 3 ∧
      (∀ floatBytes : ℚ → List ℕ,
        sampleBytes 16 floatBytes s = leBytes16 (written16 s) ∧
        sampleBytes 24 floatBytes s = bytes24 (written24 s) ∧
        sampleBytes 32 floatBytes s = floatBytes (clip s)) ∧
      written32 s = clip s := by
  intro s
  obtain ⟨w16a, w16b⟩ := written16_range s
  refine ⟨clip_bounds s, ?_, ?_, ⟨w16a, w16b, jsToInt16_id _ w16a w16b⟩,
    ?_, ?_, written24_range s, bytes24_decode _, rfl,
    fun floatBytes => ⟨rfl, rfl, rfl⟩, rfl⟩
  · intro h
    unfold pcmScale16
    rw [if_neg (not_lt.mpr h)]
  · intro h
    unfold pcmScale16
    rw [if_pos h]
  · intro h
    unfold pcmScale24
    rw [if_neg (not_lt.mpr h)]
  · intro h
    unfold pcmScale24
    rw [if_pos h]

set_option maxRecDepth 40000 in
/-- Witness for `sample_encoding_spec` at the samples 3/4 (non-negative
after clipping) and -2 (clipped up to -1). -/
theorem sample_encoding_spec_witness :
    pcmScale16 (clip (3 / 4)) = clip (3 / 4) * 32767 ∧
    pcmScale16 (clip (-2)) = clip (-2) * 32768 :=
  ⟨(sample_encoding_spec (3 / 4)).2.1 (by with_unfolding_all decide),
   (sample_encoding_spec (-2)).2.2.1 (by with_unfolding_all decide)⟩

end MorphoStereo
